import Mathlib

/-!
Verification of the octo-virtual-sensors frame builder, device discovery
and transport layer (`src/lib.rs`), shallowly embedded in Lean.

Machine integers (`u16`, `u8`) are modelled as `Nat` with explicit
`% 2^16` / `% 2^8` where overflow or truncation matters.  The frame buffer
(`Vec<u8>`) is a `List Nat`; in-place writes (`self.buffer[i] = b`) are
`List.set`.  The external USB capabilities (device enumeration, open,
bulk write) are modelled as explicit inputs describing their outcomes,
while all decision logic is translated from the source.
-/

/-- Header offset (`static HEADER: usize = 1`). -/
def HEADER : Nat := 1

/-- Checksum width in bytes (`static CHECKSUM: usize = 2`). -/
def CHECKSUM : Nat := 2

/-- Vendor id of the Octo (`static VENDOR_ID: u16 = 3184`). -/
def VENDOR_ID : Nat := 3184

/-- Product id of the Octo (`static PRODUCT_ID: u16 = 61457`). -/
def PRODUCT_ID : Nat := 61457

/-- The 51-byte buffer template installed by `Octo::new`. -/
def initBuffer : List Nat :=
  [4, 127, 255, 127, 255, 127, 255, 127, 255, 127, 255, 127, 255, 127, 255, 127,
   255, 127, 255, 127, 255, 127, 255, 127, 255, 127, 255, 127, 255, 127, 255, 127,
   255, 0, 0, 0, 0, 3, 0, 0, 0, 0, 0, 0, 0, 0, 0, 0, 0, 255, 255]

/-- `u16::to_be_bytes`: the big-endian byte pair of a 16-bit quantity. -/
def toBeBytes (x : Nat) : Nat × Nat := (x / 256 % 256, x % 256)

/-- One reflected CRC bit step for polynomial `0x8005` (reflected `0xA001`),
as performed per bit by the `crc` crate for `CRC_16_USB`
(poly `0x8005`, init `0xFFFF`, refin/refout, xorout `0xFFFF`). -/
def crcStepBit (c : Nat) : Nat :=
  if c % 2 = 1 then (c / 2) ^^^ 0xA001 else c / 2

/-- Feed one data byte into the reflected CRC state. -/
def crcByte (c b : Nat) : Nat :=
  Nat.iterate crcStepBit 8 (c ^^^ b)

/-- `crc::Crc::<u16>::new(&crc::CRC_16_USB)` digest over a byte sequence:
init `0xFFFF`, reflected processing, output xor `0xFFFF`. -/
def crc16usb (data : List Nat) : Nat :=
  (data.foldl crcByte 0xFFFF) ^^^ 0xFFFF

/-- The slice the digest is updated with:
`&self.buffer[HEADER..self.buffer.len() - CHECKSUM]`. -/
def crcRegion (buffer : List Nat) : List Nat :=
  (buffer.drop HEADER).take (buffer.length - CHECKSUM - HEADER)

/-- The 16-bit quantity written into sensor slot `index`:
`100_u16 * value` (wrapping, so `% 2^16`) when `sensor_values.get(index)`
is `Some value`, and the sentinel `32767_u16` otherwise. -/
def slotValue (sensor_values : List Nat) (index : Nat) : Nat :=
  match sensor_values[index]? with
  | some value => (100 * value) % 65536
  | none => 32767

/-- `Octo::update_buffer`: for each `index in 0..16` write the big-endian
bytes of the slot quantity at `HEADER + 2*index`, then recompute the
CRC-16/USB digest over `buffer[HEADER..len-CHECKSUM]` and store its
big-endian bytes at positions 49 and 50. -/
def update_buffer (buffer : List Nat) (sensor_values : List Nat) : List Nat :=
  let buffer := (List.range 16).foldl (fun buf index =>
    let sensor_offset := HEADER + 2 * index
    let value := toBeBytes (slotValue sensor_values index)
    (buf.set sensor_offset value.1).set (sensor_offset + 1) value.2) buffer
  let checksum := toBeBytes (crc16usb (crcRegion buffer))
  (buffer.set 49 checksum.1).set 50 checksum.2

/-- The fixed trailing configuration block, bytes 33-48 of the template. -/
def configBytes : List Nat := [0, 0, 0, 0, 3, 0, 0, 0, 0, 0, 0, 0, 0, 0, 0, 0]

/-- The 32 sensor-area bytes produced by an encode call: the big-endian
pairs of the sixteen slot quantities. -/
def sensorSlotBytes (values : List Nat) : List Nat :=
  (List.range 16).flatMap fun i =>
    [(toBeBytes (slotValue values i)).1, (toBeBytes (slotValue values i)).2]

/-- Closed form of the frame right after `update_buffer` returns. -/
def updatedFrame (values : List Nat) : List Nat :=
  let s := sensorSlotBytes values
  let checksum := toBeBytes (crc16usb (s ++ configBytes))
  4 :: (s ++ (configBytes ++ [checksum.1, checksum.2]))

/-- The frame produced by the Octo's successive `update_buffer` calls,
starting from the template installed by `Octo::new`. -/
def runUpdates (inputs : List (List Nat)) : List Nat :=
  inputs.foldl update_buffer initBuffer

theorem update_buffer_initBuffer (values : List Nat) :
    update_buffer initBuffer values = updatedFrame values := by
  simp [update_buffer, initBuffer, updatedFrame, sensorSlotBytes, configBytes, crcRegion,
        HEADER, CHECKSUM, List.range_succ]

theorem update_buffer_updatedFrame (w values : List Nat) :
    update_buffer (updatedFrame w) values = updatedFrame values := by
  simp [update_buffer, updatedFrame, sensorSlotBytes, configBytes, crcRegion,
        HEADER, CHECKSUM, List.range_succ]

theorem update_buffer_shape (s : Fin 32 → Nat) (c0 c1 : Nat) (values : List Nat) :
    update_buffer (4 :: (List.ofFn s ++ (configBytes ++ [c0, c1]))) values
      = updatedFrame values := by
  simp [update_buffer, updatedFrame, sensorSlotBytes, configBytes, crcRegion,
        HEADER, CHECKSUM, List.range_succ, List.ofFn_succ]

theorem runUpdates_reach (inputs : List (List Nat)) :
    runUpdates inputs = initBuffer ∨ ∃ v, runUpdates inputs = updatedFrame v := by
  suffices h : ∀ (b : List Nat), (b = initBuffer ∨ ∃ v, b = updatedFrame v) →
      ∀ (l : List (List Nat)), (l.foldl update_buffer b = initBuffer ∨
        ∃ v, l.foldl update_buffer b = updatedFrame v) from
    h initBuffer (Or.inl rfl) inputs
  intro b hb l
  induction l generalizing b with
  | nil => simpa using hb
  | cons x xs ih =>
    simp only [List.foldl_cons]
    apply ih
    refine Or.inr ?_
    rcases hb with rfl | ⟨v, rfl⟩
    · exact ⟨x, update_buffer_initBuffer x⟩
    · exact ⟨x, update_buffer_updatedFrame v x⟩

theorem update_buffer_runUpdates (prev : List (List Nat)) (values : List Nat) :
    update_buffer (runUpdates prev) values = updatedFrame values := by
  rcases runUpdates_reach prev with h | ⟨v, h⟩ <;> rw [h]
  · exact update_buffer_initBuffer values
  · exact update_buffer_updatedFrame v values

theorem sensorSlotBytes_length (values : List Nat) :
    (sensorSlotBytes values).length = 32 := by
  simp [sensorSlotBytes, List.range_succ]

theorem updatedFrame_length (values : List Nat) :
    (updatedFrame values).length = 51 := by
  simp [updatedFrame, sensorSlotBytes, configBytes, List.range_succ]

theorem updatedFrame_head (values : List Nat) :
    (updatedFrame values)[0]? = some 4 := by
  simp [updatedFrame]

theorem updatedFrame_config (values : List Nat) :
    ((updatedFrame values).drop 33).take 16 = configBytes := by
  simp [updatedFrame, sensorSlotBytes, configBytes, List.range_succ]

theorem crcRegion_updatedFrame (values : List Nat) :
    crcRegion (updatedFrame values) = sensorSlotBytes values ++ configBytes := by
  simp [crcRegion, updatedFrame, sensorSlotBytes, configBytes, HEADER, CHECKSUM,
        List.range_succ]

theorem updatedFrame_checksum (values : List Nat) :
    (updatedFrame values)[49]? =
      some ((toBeBytes (crc16usb (sensorSlotBytes values ++ configBytes))).1) ∧
    (updatedFrame values)[50]? =
      some ((toBeBytes (crc16usb (sensorSlotBytes values ++ configBytes))).2) := by
  constructor <;>
    simp [updatedFrame, sensorSlotBytes, configBytes, List.range_succ]

theorem updatedFrame_slot (values : List Nat) (i : Nat) (h : i < 16) :
    (updatedFrame values)[1 + 2 * i]? = some ((toBeBytes (slotValue values i)).1) ∧
    (updatedFrame values)[2 + 2 * i]? = some ((toBeBytes (slotValue values i)).2) := by
  interval_cases i <;>
    exact ⟨by simp [updatedFrame, sensorSlotBytes, configBytes, List.range_succ],
           by simp [updatedFrame, sensorSlotBytes, configBytes, List.range_succ]⟩

theorem crcStepBit_lt (c : Nat) (h : c < 65536) : crcStepBit c < 65536 := by
  unfold crcStepBit
  split
  · have h1 : c / 2 < 2 ^ 16 := by omega
    have h2 : (0xA001 : Nat) < 2 ^ 16 := by norm_num
    have := Nat.xor_lt_two_pow h1 h2
    simpa using this
  · omega

theorem crcByte_eq (c b : Nat) :
    crcByte c b = crcStepBit (crcStepBit (crcStepBit (crcStepBit (crcStepBit
      (crcStepBit (crcStepBit (crcStepBit (c ^^^ b)))))))) := rfl

theorem crcByte_lt (c b : Nat) (hc : c < 65536) (hb : b < 65536) :
    crcByte c b < 65536 := by
  have h0 : c ^^^ b < 65536 := by
    have h1 : c < 2 ^ 16 := by omega
    have h2 : b < 2 ^ 16 := by omega
    have := Nat.xor_lt_two_pow h1 h2
    simpa using this
  rw [crcByte_eq]
  exact crcStepBit_lt _ (crcStepBit_lt _ (crcStepBit_lt _ (crcStepBit_lt _
    (crcStepBit_lt _ (crcStepBit_lt _ (crcStepBit_lt _ (crcStepBit_lt _ h0)))))))

theorem foldl_crcByte_lt (data : List Nat) (init : Nat) (h0 : init < 65536)
    (h : ∀ b ∈ data, b < 65536) : data.foldl crcByte init < 65536 := by
  induction data generalizing init with
  | nil => simpa using h0
  | cons d rest ih =>
    simp only [List.foldl_cons]
    exact ih _ (crcByte_lt _ _ h0 (h d (by simp)))
      (fun b hb => h b (List.mem_cons_of_mem _ hb))

theorem crc16usb_lt (data : List Nat) (h : ∀ b ∈ data, b < 65536) :
    crc16usb data < 65536 := by
  unfold crc16usb
  have h1 : data.foldl crcByte 0xFFFF < 2 ^ 16 := by
    have := foldl_crcByte_lt data 0xFFFF (by norm_num) h
    omega
  have h2 : (0xFFFF : Nat) < 2 ^ 16 := by norm_num
  have := Nat.xor_lt_two_pow h1 h2
  simpa using this

theorem sensorSlotBytes_bound (values : List Nat) :
    ∀ b ∈ sensorSlotBytes values ++ configBytes, b < 65536 := by
  intro b hb
  rcases List.mem_append.1 hb with h | h
  · obtain ⟨i, -, hmem⟩ := List.mem_flatMap.1 h
    simp only [toBeBytes, List.mem_cons, List.mem_singleton] at hmem
    rcases hmem with rfl | rfl | hfalse
    · omega
    · omega
    · simp at hfalse
  · fin_cases h <;> norm_num

theorem slotValue_of_lt (values : List Nat) (i : Nat) (h : i < values.length) :
    slotValue values i = (100 * values.getD i 0) % 65536 := by
  rw [slotValue, List.getElem?_eq_getElem h, List.getD_eq_getElem _ _ h]

theorem slotValue_of_ge (values : List Nat) (i : Nat) (h : values.length ≤ i) :
    slotValue values i = 32767 := by
  rw [slotValue, List.getElem?_eq_none h]

theorem slotValue_take (values : List Nat) (i : Nat) (h : i < 16) :
    slotValue (values.take 16) i = slotValue values i := by
  rw [slotValue, slotValue, List.getElem?_take_of_lt h]

theorem updatedFrame_take16 (values : List Nat) :
    updatedFrame (values.take 16) = updatedFrame values := by
  simp [updatedFrame, sensorSlotBytes, List.range_succ, slotValue_take]

/-- Failures surfaced by `Octo::new`: the `.context("Getting device ID")`
error when a descriptor read fails, and the
`bail!("Could not find Aquastream Octo")` error when the scan is
exhausted without a match. -/
inductive NewError where
  | gettingDeviceId
  | couldNotFindOcto
deriving DecidableEq

/-- The `Octo` struct: the located device (identified here by its position
in the enumeration order) and the owned 51-byte frame buffer. -/
structure Octo where
  device : Nat
  buffer : List Nat
deriving DecidableEq

/-- The scan loop of `Octo::new` over the USB device list.  Each entry of
`descriptors` is the outcome of `device.device_descriptor()` for one
enumerated device: `some (vendor_id, product_id)` on success, `none` on a
read failure.  `idx` counts the devices already examined. -/
def octoNewLoop : Nat → List (Option (Nat × Nat)) → Except NewError Octo
  | _, [] => .error .couldNotFindOcto
  | idx, dd :: rest =>
    match dd with
    | none => .error .gettingDeviceId
    | some (v, p) =>
      if v = VENDOR_ID ∧ p = PRODUCT_ID then
        .ok { device := idx, buffer := initBuffer }
      else
        octoNewLoop (idx + 1) rest

/-- `Octo::new`, given a successfully obtained device list described by
the per-device descriptor outcomes. -/
def octoNew (descriptors : List (Option (Nat × Nat))) : Except NewError Octo :=
  octoNewLoop 0 descriptors

/-- Outcome of the external USB transport used by `Octo::send`:
`self.device.open()` may fail, and `write_bulk` may fail (error or
timeout) or report `n` bytes written. -/
inductive TransportOutcome where
  | openFailed
  | writeFailed
  | written (n : Nat)
deriving DecidableEq

/-- The error contexts attached by `Octo::send`. -/
inductive SendError where
  | openingUsbDevice
  | sendingBulkTransfer
deriving DecidableEq

/-- The `Result<usize>` returned by `Octo::send` for a given transport
outcome. -/
def sendResult : TransportOutcome → Except SendError Nat
  | .openFailed => .error .openingUsbDevice
  | .writeFailed => .error .sendingBulkTransfer
  | .written n => .ok n

/-- `Octo::send`: opens the device and bulk-writes `self.buffer`; the
struct state is only read, never written. -/
def send (octo : Octo) (outcome : TransportOutcome) :
    Except SendError Nat × Octo :=
  (sendResult outcome, octo)

/-- `Octo::update_virtual_sensors`: `self.update_buffer(sensor_values)`
followed by `self.send()`. -/
def update_virtual_sensors (octo : Octo) (sensor_values : List Nat)
    (outcome : TransportOutcome) : Except SendError Nat × Octo :=
  let octo := { octo with buffer := update_buffer octo.buffer sensor_values }
  send octo outcome

/-- Whether a descriptor outcome is a successful read of identifiers that
do not match the Octo's vendor/product pair. -/
def nonMatching (dd : Option (Nat × Nat)) : Prop :=
  ∃ v p, dd = some (v, p) ∧ ¬(v = VENDOR_ID ∧ p = PRODUCT_ID)

theorem octoNewLoop_found (descriptors : List (Option (Nat × Nat))) (idx i : Nat)
    (hlt : i < descriptors.length)
    (hmatch : descriptors.getD i none = some (VENDOR_ID, PRODUCT_ID))
    (hpre : ∀ j < i, nonMatching (descriptors.getD j none)) :
    octoNewLoop idx descriptors = .ok { device := idx + i, buffer := initBuffer } := by
  induction descriptors generalizing idx i with
  | nil => simp at hlt
  | cons dd rest ih =>
    match i with
    | 0 =>
      simp only [List.getD_cons_zero] at hmatch
      subst hmatch
      simp [octoNewLoop, VENDOR_ID, PRODUCT_ID]
    | k + 1 =>
      have h0 := hpre 0 (by omega)
      obtain ⟨v, p, hdd, hnm⟩ := h0
      simp only [List.getD_cons_zero] at hdd
      subst hdd
      have step : octoNewLoop idx (some (v, p) :: rest) = octoNewLoop (idx + 1) rest := by
        simp [octoNewLoop, hnm]
      rw [step]
      have := ih (idx + 1) k (by simpa using hlt)
        (by simpa using hmatch)
        (fun j hj => by
          have := hpre (j + 1) (by omega)
          simpa using this)
      rw [this]
      have : idx + 1 + k = idx + (k + 1) := by omega
      rw [this]

theorem octoNewLoop_abort (descriptors : List (Option (Nat × Nat))) (idx i : Nat)
    (hlt : i < descriptors.length)
    (herr : descriptors.getD i none = none)
    (hpre : ∀ j < i, nonMatching (descriptors.getD j none)) :
    octoNewLoop idx descriptors = .error .gettingDeviceId := by
  induction descriptors generalizing idx i with
  | nil => simp at hlt
  | cons dd rest ih =>
    match i with
    | 0 =>
      simp only [List.getD_cons_zero] at herr
      subst herr
      simp [octoNewLoop]
    | k + 1 =>
      have h0 := hpre 0 (by omega)
      obtain ⟨v, p, hdd, hnm⟩ := h0
      simp only [List.getD_cons_zero] at hdd
      subst hdd
      have step : octoNewLoop idx (some (v, p) :: rest) = octoNewLoop (idx + 1) rest := by
        simp [octoNewLoop, hnm]
      rw [step]
      exact ih (idx + 1) k (by simpa using hlt) (by simpa using herr)
        (fun j hj => by
          have := hpre (j + 1) (by omega)
          simpa using this)

theorem octoNewLoop_notFound (descriptors : List (Option (Nat × Nat))) (idx : Nat)
    (h : ∀ dd ∈ descriptors, nonMatching dd) :
    octoNewLoop idx descriptors = .error .couldNotFindOcto := by
  induction descriptors generalizing idx with
  | nil => simp [octoNewLoop]
  | cons dd rest ih =>
    obtain ⟨v, p, hdd, hnm⟩ := h dd (by simp)
    subst hdd
    have step : octoNewLoop idx (some (v, p) :: rest) = octoNewLoop (idx + 1) rest := by
      simp [octoNewLoop, hnm]
    rw [step]
    exact ih (idx + 1) (fun d hd => h d (List.mem_cons_of_mem _ hd))

/-- C1: encoding the input sequence `[1,2,...,16]` into the fresh template
produces exactly the 51-byte frame from the repository's `update_buffer`
test, ending in the checksum bytes `218, 118`. -/
theorem claim_C1_test_vector_frame :
    update_buffer initBuffer [1, 2, 3, 4, 5, 6, 7, 8, 9, 10, 11, 12, 13, 14, 15, 16] =
      [4, 0, 100, 0, 200, 1, 44, 1, 144, 1, 244, 2, 88, 2, 188, 3, 32, 3, 132, 3, 232,
       4, 76, 4, 176, 5, 20, 5, 120, 5, 220, 6, 64, 0, 0, 0, 0, 3, 0, 0, 0, 0, 0, 0,
       0, 0, 0, 0, 0, 218, 118] := by
  rw [update_buffer_initBuffer]
  set_option maxRecDepth 100000 in decide

/-- C2: after any encode call on the Octo's frame, the bytes at positions
49 and 50 read as a big-endian 16-bit integer equal the CRC-16/USB
checksum recomputed over the frame's CRC region (bytes 1-48). -/
theorem claim_C2_checksum_recompute (prev : List (List Nat)) (values : List Nat)
    (hlen : values.length ≤ 16) (hvals : ∀ v ∈ values, v < 65536) :
    ((update_buffer (runUpdates prev) values)[49]?).getD 0 * 256 +
      ((update_buffer (runUpdates prev) values)[50]?).getD 0 =
      crc16usb (crcRegion (update_buffer (runUpdates prev) values)) := by
  rw [update_buffer_runUpdates, crcRegion_updatedFrame,
      (updatedFrame_checksum values).1, (updatedFrame_checksum values).2]
  have hchk : crc16usb (sensorSlotBytes values ++ configBytes) < 65536 :=
    crc16usb_lt _ (sensorSlotBytes_bound values)
  simp only [toBeBytes, Option.getD_some]
  omega

theorem claim_C2_checksum_recompute_witness :
    ([1, 2, 3] : List Nat).length ≤ 16 ∧
    (((update_buffer (runUpdates []) [1, 2, 3])[49]?).getD 0 * 256 +
      ((update_buffer (runUpdates []) [1, 2, 3])[50]?).getD 0 =
      crc16usb (crcRegion (update_buffer (runUpdates []) [1, 2, 3]))) :=
  ⟨by decide, claim_C2_checksum_recompute [] [1, 2, 3] (by decide) (by decide)⟩

/-- C3 (counterexample to the claimed byte count): the CRC region of an
encoded frame has 48 bytes, not 47. -/
theorem claim_C3_counterexample :
    (crcRegion (update_buffer initBuffer [1, 2])).length ≠ 47 := by
  set_option maxRecDepth 100000 in decide

/-- C3 (amended): the region the encode checksum is computed over is
`buffer[1..49]`, comprising 48 bytes, namely the sensor area plus the
trailing configuration block, excluding the header byte and excluding the
checksum field itself. -/
theorem claim_C3_crc_region (prev : List (List Nat)) (values : List Nat) :
    (crcRegion (update_buffer (runUpdates prev) values)).length = 48 ∧
    crcRegion (update_buffer (runUpdates prev) values) =
      sensorSlotBytes values ++ configBytes ∧
    4 :: (crcRegion (update_buffer (runUpdates prev) values) ++
        [((update_buffer (runUpdates prev) values)[49]?).getD 0,
         ((update_buffer (runUpdates prev) values)[50]?).getD 0]) =
      update_buffer (runUpdates prev) values := by
  rw [update_buffer_runUpdates, crcRegion_updatedFrame,
      (updatedFrame_checksum values).1, (updatedFrame_checksum values).2]
  refine ⟨?_, rfl, ?_⟩
  · rw [List.length_append, sensorSlotBytes_length]
    rfl
  · simp [updatedFrame]

/-- C4: an input value at position `i` is encoded as `value * 100` in
16-bit wrapping arithmetic (`% 2^16`), written big-endian into slot `i`,
and encoding always succeeds, returning a full 51-byte frame. -/
theorem claim_C4_wrapping_encode (prev : List (List Nat)) (values : List Nat) (i : Nat)
    (h16 : i < 16) (hlen : i < values.length) :
    (update_buffer (runUpdates prev) values)[1 + 2 * i]? =
      some ((100 * values.getD i 0) % 65536 / 256 % 256) ∧
    (update_buffer (runUpdates prev) values)[2 + 2 * i]? =
      some ((100 * values.getD i 0) % 65536 % 256) ∧
    (update_buffer (runUpdates prev) values).length = 51 := by
  rw [update_buffer_runUpdates]
  obtain ⟨h1, h2⟩ := updatedFrame_slot values i h16
  rw [slotValue_of_lt values i hlen] at h1 h2
  simp only [toBeBytes] at h1 h2
  exact ⟨h1, h2, updatedFrame_length values⟩

theorem claim_C4_wrapping_encode_witness :
    ((update_buffer (runUpdates []) [700])[1 + 2 * 0]? =
        some ((100 * ([700] : List Nat).getD 0 0) % 65536 / 256 % 256) ∧
      (update_buffer (runUpdates []) [700])[2 + 2 * 0]? =
        some ((100 * ([700] : List Nat).getD 0 0) % 65536 % 256) ∧
      (update_buffer (runUpdates []) [700]).length = 51) ∧
    (100 * 700) % 65536 = 4464 :=
  ⟨claim_C4_wrapping_encode [] [700] 0 (by decide) (by decide), by decide⟩

/-- C5: every encode call sets all sixteen slots explicitly: slot `i`
carries the encoding of `values[i]` when present and the sentinel bytes
`127, 255` (32767 big-endian) otherwise, and positions of the input beyond
the first 16 are ignored. -/
theorem claim_C5_all_slots (prev : List (List Nat)) (values : List Nat) (i : Nat)
    (h16 : i < 16) :
    (i < values.length →
      (update_buffer (runUpdates prev) values)[1 + 2 * i]? =
        some ((100 * values.getD i 0) % 65536 / 256 % 256) ∧
      (update_buffer (runUpdates prev) values)[2 + 2 * i]? =
        some ((100 * values.getD i 0) % 65536 % 256)) ∧
    (values.length ≤ i →
      (update_buffer (runUpdates prev) values)[1 + 2 * i]? = some 127 ∧
      (update_buffer (runUpdates prev) values)[2 + 2 * i]? = some 255) ∧
    update_buffer (runUpdates prev) values =
      update_buffer (runUpdates prev) (values.take 16) := by
  rw [update_buffer_runUpdates prev values, update_buffer_runUpdates prev (values.take 16),
      updatedFrame_take16]
  obtain ⟨h1, h2⟩ := updatedFrame_slot values i h16
  refine ⟨fun hlen => ?_, fun hge => ?_, rfl⟩
  · rw [slotValue_of_lt values i hlen] at h1 h2
    simp only [toBeBytes] at h1 h2
    exact ⟨h1, h2⟩
  · rw [slotValue_of_ge values i hge] at h1 h2
    norm_num [toBeBytes] at h1 h2
    exact ⟨h1, h2⟩

theorem claim_C5_all_slots_witness :
    (1 < ([5] : List Nat).length →
      (update_buffer (runUpdates []) [5])[1 + 2 * 1]? =
        some ((100 * ([5] : List Nat).getD 1 0) % 65536 / 256 % 256) ∧
      (update_buffer (runUpdates []) [5])[2 + 2 * 1]? =
        some ((100 * ([5] : List Nat).getD 1 0) % 65536 % 256)) ∧
    (([5] : List Nat).length ≤ 1 →
      (update_buffer (runUpdates []) [5])[1 + 2 * 1]? = some 127 ∧
      (update_buffer (runUpdates []) [5])[2 + 2 * 1]? = some 255) ∧
    update_buffer (runUpdates []) [5] =
      update_buffer (runUpdates []) (([5] : List Nat).take 16) :=
  claim_C5_all_slots [] [5] 1 (by decide)

/-- C6: after any number of update calls with inputs of length at most 16,
the frame is exactly 51 bytes, byte 0 is the constant header 4, and bytes
33-48 still hold the template's fixed configuration block. -/
theorem claim_C6_frame_invariants (inputs : List (List Nat))
    (h : ∀ vs ∈ inputs, vs.length ≤ 16) :
    (runUpdates inputs).length = 51 ∧
    (runUpdates inputs)[0]? = some 4 ∧
    ((runUpdates inputs).drop 33).take 16 = configBytes := by
  rcases runUpdates_reach inputs with hr | ⟨v, hr⟩ <;> rw [hr]
  · exact ⟨by decide, by decide, by decide⟩
  · exact ⟨updatedFrame_length v, updatedFrame_head v, updatedFrame_config v⟩

theorem claim_C6_frame_invariants_witness :
    (runUpdates [[1], [2, 3]]).length = 51 ∧
    (runUpdates [[1], [2, 3]])[0]? = some 4 ∧
    ((runUpdates [[1], [2, 3]]).drop 33).take 16 = configBytes :=
  claim_C6_frame_invariants [[1], [2, 3]] (by decide)

/-- C7: encoding is idempotent — encoding the same input twice yields the
frame of encoding it once — and the encoded frame does not depend on the
prior contents of the sensor slots or of the checksum field. -/
theorem claim_C7_idempotent_independent (prev : List (List Nat)) (values : List Nat)
    (s1 s2 : Fin 32 → Nat) (c0 c1 d0 d1 : Nat) :
    update_buffer (update_buffer (runUpdates prev) values) values =
      update_buffer (runUpdates prev) values ∧
    update_buffer (4 :: (List.ofFn s1 ++ (configBytes ++ [c0, c1]))) values =
      update_buffer (4 :: (List.ofFn s2 ++ (configBytes ++ [d0, d1]))) values := by
  constructor
  · rw [update_buffer_runUpdates prev values, update_buffer_updatedFrame]
  · rw [update_buffer_shape, update_buffer_shape]

/-- C8: `Octo::new` returns the first enumerated device whose identifiers
are (3184, 61457); a descriptor-read failure encountered before a match
aborts the whole discovery with that error; an exhausted scan fails with
the device-not-found error. -/
theorem claim_C8_discovery (devices : List (Option (Nat × Nat))) :
    (∀ i, i < devices.length →
      devices.getD i none = some (VENDOR_ID, PRODUCT_ID) →
      (∀ j < i, nonMatching (devices.getD j none)) →
      octoNew devices = .ok { device := i, buffer := initBuffer }) ∧
    (∀ i, i < devices.length →
      devices.getD i none = none →
      (∀ j < i, nonMatching (devices.getD j none)) →
      octoNew devices = .error .gettingDeviceId) ∧
    ((∀ dd ∈ devices, nonMatching dd) →
      octoNew devices = .error .couldNotFindOcto) := by
  refine ⟨fun i hi hm hp => ?_, fun i hi he hp => ?_, fun h => ?_⟩
  · have := octoNewLoop_found devices 0 i hi hm hp
    simpa [octoNew] using this
  · exact octoNewLoop_abort devices 0 i hi he hp
  · exact octoNewLoop_notFound devices 0 h

theorem claim_C8_discovery_witness :
    octoNew [some (1, 2), some (VENDOR_ID, PRODUCT_ID)] =
      .ok { device := 1, buffer := initBuffer } ∧
    octoNew [some (1, 2), none] = .error .gettingDeviceId ∧
    octoNew [some (1, 2), some (3, 4)] = .error .couldNotFindOcto := by
  refine ⟨(claim_C8_discovery _).1 1 (by decide) (by decide) ?_,
          (claim_C8_discovery _).2.1 1 (by decide) (by decide) ?_,
          (claim_C8_discovery _).2.2 ?_⟩
  · intro j hj
    interval_cases j
    exact ⟨1, 2, rfl, by decide⟩
  · intro j hj
    interval_cases j
    exact ⟨1, 2, rfl, by decide⟩
  · intro dd hdd
    fin_cases hdd
    · exact ⟨1, 2, rfl, by decide⟩
    · exact ⟨3, 4, rfl, by decide⟩

/-- C9: `send` never mutates the frame buffer: on a transport failure
(open failure or bulk-write failure) the buffer is exactly the one left by
the preceding encode, and `send` returns the Octo state unchanged. -/
theorem claim_C9_send_read_only (octo : Octo) (values : List Nat)
    (outcome : TransportOutcome)
    (hfail : outcome = .openFailed ∨ outcome = .writeFailed) :
    (update_virtual_sensors octo values outcome).2.buffer =
      update_buffer octo.buffer values ∧
    (send octo outcome).2 = octo := by
  constructor
  · simp only [update_virtual_sensors, send]
  · simp only [send]

theorem claim_C9_send_read_only_witness :
    (update_virtual_sensors { device := 0, buffer := initBuffer } [1] .openFailed).2.buffer =
      update_buffer ({ device := 0, buffer := initBuffer } : Octo).buffer [1] ∧
    (send { device := 0, buffer := initBuffer } .openFailed).2 =
      ({ device := 0, buffer := initBuffer } : Octo) :=
  claim_C9_send_read_only { device := 0, buffer := initBuffer } [1] .openFailed (Or.inl rfl)

/-- C10: the encoded slot quantity `100 * v mod 2^16` is always even while
the sentinel 32767 is odd, so a supplied input value can never produce the
sentinel encoding `0x7F 0xFF`. -/
theorem claim_C10_parity (values : List Nat) (i : Nat) (h : i < values.length) :
    slotValue values i % 2 = 0 ∧ (32767 : Nat) % 2 = 1 ∧
    slotValue values i ≠ 32767 ∧
    toBeBytes (slotValue values i) ≠ (127, 255) := by
  rw [slotValue_of_lt values i h]
  refine ⟨by omega, by norm_num, by omega, ?_⟩
  intro hc
  rw [toBeBytes, Prod.mk.injEq] at hc
  omega

theorem claim_C10_parity_witness :
    slotValue [656] 0 % 2 = 0 ∧ (32767 : Nat) % 2 = 1 ∧
    slotValue [656] 0 ≠ 32767 ∧
    toBeBytes (slotValue [656] 0) ≠ (127, 255) :=
  claim_C10_parity [656] 0 (by decide)
